import Mathlib

/-!
Verification of the client-side flashcard session state machine in
`script.js`: data model, navigation, flip, starring, layout variants, the
parsing of imports and local-storage persistence, shallowly embedded as
executable Lean definitions, followed by theorems about the spec claims.
-/

set_option maxRecDepth 8000

/-- A flashcard: one term/definition pair (`{ term, definition }` in the code). -/
structure Card where
  term : String
  definition : String
  deriving DecidableEq, Repr

/-- The mutable `state` object of `script.js`: current card index, flip flag,
starred indices (a JS `Set`, modelled as its insertion-ordered list), and the
active design variant string. -/
structure AppState where
  currentIndex : Nat
  isFlipped : Bool
  starredCards : List Nat
  designVariant : String
  deriving DecidableEq, Repr

/-- The value stored under the `flashcardState` localStorage key by `saveState`. -/
structure SessionSnapshot where
  currentIndex : Nat
  starredCards : List Nat
  deriving DecidableEq, Repr

/-- The value stored under the `flashcardContent` localStorage key by `saveContent`. -/
structure ContentSnapshot where
  title : String
  cards : List Card
  savedAt : String
  deriving DecidableEq, Repr

/-- The localStorage keys the script reads or writes. -/
structure Storage where
  flashcardState : Option SessionSnapshot
  flashcardContent : Option ContentSnapshot
  designVariant : Option String
  deriving DecidableEq, Repr

/-- The whole observable world of the page: the `flashcards` array, the
`state` object, localStorage, and the variant classes on `document.body`. -/
structure World where
  flashcards : List Card
  state : AppState
  storage : Storage
  bodyClasses : List String
  deriving DecidableEq, Repr

/-- The built-in sample deck hard-coded at the top of `script.js`. -/
def defaultFlashcards : List Card :=
  [ { term := "Component",
      definition := "A reusable piece of UI that encapsulates its own structure, style, and behavior" },
    { term := "Design Token",
      definition := "Named entities that store visual design attributes like colors, typography, and spacing" },
    { term := "Typography",
      definition := "The art and technique of arranging type to make written language legible and appealing" },
    { term := "Color System",
      definition := "A structured set of colors used consistently throughout a design system" },
    { term := "Spacing Scale",
      definition := "A defined set of spacing values used for margins, padding, and gaps" },
    { term := "Grid System",
      definition := "A structure of horizontal and vertical lines used to arrange content" },
    { term := "Breakpoint",
      definition := "Specific viewport widths where the layout changes for responsive design" },
    { term := "Accessibility",
      definition := "The practice of making products usable by people with various abilities" } ]

/-- The initial `state` literal of `script.js`. -/
def initialState : AppState :=
  { currentIndex := 0, isFlipped := false, starredCards := [], designVariant := "option-a" }

/-- Fresh localStorage with none of the three keys present. -/
def emptyStorage : Storage := { flashcardState := none, flashcardContent := none, designVariant := none }

/-- The function `updateCard`: reads `flashcards[state.currentIndex]` and writes
its `term`/`definition` to the card faces, crashing (`none`) when the index is
out of range (the JS dereferences `card.term` on `undefined`); clears
`isFlipped`. DOM-only effects (star button, animation, TOC highlight) are
not part of the observable state here. -/
def updateCard (w : World) : Option World :=
  if w.state.currentIndex < w.flashcards.length then
    some { w with state := { w.state with isFlipped := false } }
  else none

/-- The index arithmetic of `nextCard`: increment, wrapping from the last index to 0. -/
def nextIndex (len i : Nat) : Nat := if i < len - 1 then i + 1 else 0

/-- The index arithmetic of `prevCard`: decrement, wrapping from 0 to the last index. -/
def prevIndex (len i : Nat) : Nat := if 0 < i then i - 1 else len - 1

/-- The function `nextCard`: advance `currentIndex` with wraparound, then `updateCard`. -/
def nextCard (w : World) : Option World :=
  updateCard { w with state := { w.state with currentIndex := nextIndex w.flashcards.length w.state.currentIndex } }

/-- The function `prevCard`: retreat `currentIndex` with wraparound, then `updateCard`. -/
def prevCard (w : World) : Option World :=
  updateCard { w with state := { w.state with currentIndex := prevIndex w.flashcards.length w.state.currentIndex } }

/-- A sidebar/panel/journey list-item click handler: `state.currentIndex = index; updateCard()`.
This is the `goTo(i)` operation of the spec. -/
def goTo (i : Nat) (w : World) : Option World :=
  updateCard { w with state := { w.state with currentIndex := i } }

/-- The function `flipCard`: toggles `state.isFlipped` (and the `flipped` CSS class). -/
def flipCard (w : World) : World :=
  { w with state := { w.state with isFlipped := !w.state.isFlipped } }

/-- The session snapshot `saveState` serializes: `{ currentIndex, starredCards: [...set] }`. -/
def sessionSnapshotOf (st : AppState) : SessionSnapshot :=
  { currentIndex := st.currentIndex, starredCards := st.starredCards }

/-- The function `saveState`: writes the session snapshot to the `flashcardState` key. -/
def saveState (w : World) : World :=
  { w with storage := { w.storage with flashcardState := some (sessionSnapshotOf w.state) } }

/-- The function `toggleStar`: toggles membership of `currentIndex` in the starred
set (JS `Set.delete` / `Set.add`, which appends on insert), then `saveState`. -/
def toggleStar (w : World) : World :=
  let i := w.state.currentIndex
  let stars :=
    if w.state.starredCards.contains i then
      w.state.starredCards.filter (fun j => j != i)
    else
      w.state.starredCards ++ [i]
  saveState { w with state := { w.state with starredCards := stars } }

/-- The five classes `setDesignVariant` removes from `document.body`. -/
def knownVariants : List String := ["option-a", "option-b", "option-c", "option-d", "option-e"]

/-- `classList.add`: appends the token unless already present. -/
def classListAdd (cs : List String) (c : String) : List String :=
  if cs.contains c then cs else cs ++ [c]

/-- The function `setDesignVariant`: removes the five known variant classes from
`document.body`, adds `variant` (unvalidated), sets `state.designVariant`, and
persists `variant` under the `designVariant` key. -/
def setDesignVariant (v : String) (w : World) : World :=
  let cleared := w.bodyClasses.filter (fun c => !(knownVariants.contains c))
  { w with
    bodyClasses := classListAdd cleared v,
    state := { w.state with designVariant := v },
    storage := { w.storage with designVariant := some v } }

/-- The function `loadDesignVariant`: reads the `designVariant` key, defaulting to
`option-a`, and applies it via `setDesignVariant`. -/
def loadDesignVariant (w : World) : World :=
  setDesignVariant (w.storage.designVariant.getD "option-a") w

/-- The function `loadSavedState`: hydrates `currentIndex` and `starredCards`
from the `flashcardState` key when present (no clamping of the index). -/
def loadSavedState (w : World) : World :=
  match w.storage.flashcardState with
  | some snap =>
      { w with state := { w.state with currentIndex := snap.currentIndex, starredCards := snap.starredCards } }
  | none => w

/-- The function `init`: starting from the module-level literals (built-in deck,
default state) and the persisted storage, runs `loadDesignVariant`, then
`loadSavedState`, then `updateCard(false)`; `none` models the `updateCard`
crash on an out-of-range hydrated index. -/
def init (s : Storage) : Option World :=
  updateCard (loadSavedState (loadDesignVariant
    { flashcards := defaultFlashcards, state := initialState, storage := s, bodyClasses := [] }))

/-- Whitespace characters for trimming (the characters occurring in this code base). -/
def isWs (c : Char) : Bool := c == ' ' || c == '\t' || c == '\n' || c == '\r'

/-- JS `String.prototype.trim`: strip leading and trailing whitespace. -/
def trimStr (s : String) : String :=
  (((s.toList.dropWhile isWs).reverse.dropWhile isWs).reverse).asString

/-- Splitting a character list at every delimiter character, JS
`String.prototype.split` style: keeps empty segments, `[""]` on empty input. -/
def splitCharsAux (p : Char → Bool) : List Char → List Char → List (List Char)
  | [], acc => [acc.reverse]
  | c :: cs, acc => if p c then acc.reverse :: splitCharsAux p cs [] else splitCharsAux p cs (c :: acc)

/-- JS `s.split(re)` for a single-character class `re` with no quantifier. -/
def splitOn (p : Char → Bool) (s : String) : List String :=
  (splitCharsAux p s.toList []).map List.asString

/-- The line delimiters of the import parser: the regex class of `[\n;]+`. -/
def isLineDelim (c : Char) : Bool := c == '\n' || c == ';'

/-- The in-line delimiters of the import parser: the regex class of `[\t,]`. -/
def isPartDelim (c : Char) : Bool := c == '\t' || c == ','

/-- Line splitting in `importFlashcards`: `text.split(/[\n;]+/)` followed by the
filter keeping lines whose trim is non-empty. Splitting at each delimiter and
then filtering is equivalent to the `+`-quantified split, because the extra
empty segments are whitespace-only and removed by the very same filter. -/
def splitLines (text : String) : List String :=
  (splitOn isLineDelim text).filter (fun l => trimStr l != "")

/-- Per-line part extraction in `importFlashcards`:
`line.split(/[\t,]/).map(p => p.trim())`. -/
def lineParts (line : String) : List String :=
  (splitOn isPartDelim line).map trimStr

/-- The per-line branch of `importFlashcards`: a card from `parts[0]`/`parts[1]`
when `parts.length >= 2`, nothing otherwise. -/
def parseLine (line : String) : Option Card :=
  match lineParts line with
  | t :: d :: _ => some { term := t, definition := d }
  | _ => none

/-- The full parse of the import text, as performed by `importFlashcards`. -/
def parseCards (text : String) : List Card :=
  (splitLines text).filterMap parseLine

/-- The user-visible outcome of `importFlashcards`: a blocking `alert`, a
silent early return, or a successful store replacement. -/
inductive ImportOutcome where
  | alerted
  | silentNoop
  | success
  deriving DecidableEq, Repr

/-- The function `saveContent`: writes `{ title, flashcards, savedAt }` under the
`flashcardContent` key; `now` stands for `new Date().toISOString()`. -/
def saveContent (title : String) (cards : List Card) (now : String) (w : World) : World :=
  { w with storage := { w.storage with flashcardContent := some { title := title, cards := cards, savedAt := now } } }

/-- The function `importFlashcards`: default the title, alert and abort on
blank text, parse, and on at least one parsed card replace the store, reset
`currentIndex` to 0 (with `updateCard(false)` clearing the flip), save the
content snapshot and close the modal; on zero parsed cards, return silently. -/
def importFlashcards (titleInput text now : String) (w : World) : World × ImportOutcome :=
  let title := if titleInput = "" then "Untitled Set" else titleInput
  if trimStr text = "" then
    (w, ImportOutcome.alerted)
  else
    let newCards := parseCards text
    if 0 < newCards.length then
      (saveContent title newCards now
        { w with flashcards := newCards,
                 state := { w.state with currentIndex := 0, isFlipped := false } },
       ImportOutcome.success)
    else
      (w, ImportOutcome.silentNoop)

/-- The function `handleKeydown`: an early return when the event target is an
INPUT or TEXTAREA; otherwise ArrowLeft/ArrowRight navigate and Space/Enter flip. -/
def handleKeydown (targetTag key : String) (w : World) : Option World :=
  if targetTag = "INPUT" ∨ targetTag = "TEXTAREA" then some w
  else
    match key with
    | "ArrowLeft" => prevCard w
    | "ArrowRight" => nextCard w
    | " " => some (flipCard w)
    | "Enter" => some (flipCard w)
    | _ => some w

/-- What a click on a rendered element does: the only listeners the panel,
journey and table renderers register are navigation listeners; elements with
no listener (in particular every star button those renderers create) are `noop`. -/
inductive ClickAction where
  | navigate (i : Nat)
  | noop
  deriving DecidableEq, Repr

/-- One rendered list row: its texts, the action of a click on the content
region, and the action of a click on the star affordance. -/
structure RenderedRow where
  term : String
  definition : String
  contentAction : ClickAction
  starAction : ClickAction
  deriving DecidableEq, Repr

/-- The function `updatePanelTermsList` (option-b / option-e): one row per card;
the `.panel-term-content` region gets a navigation click listener, the sibling
`.panel-term-star` button gets no listener at all. -/
def updatePanelTermsList (cards : List Card) : List RenderedRow :=
  cards.enum.map (fun p =>
    { term := p.2.term, definition := p.2.definition,
      contentAction := ClickAction.navigate p.1, starAction := ClickAction.noop })

/-- The function `initTableView` (option-d): one row per card; no click
listener is registered on anything in the row, star button included. -/
def initTableView (cards : List Card) : List RenderedRow :=
  cards.enum.map (fun p =>
    { term := p.2.term, definition := p.2.definition,
      contentAction := ClickAction.noop, starAction := ClickAction.noop })

/-- Dispatch of a click on a rendered element. -/
def applyAction : ClickAction → World → Option World
  | ClickAction.navigate i, w => goTo i w
  | ClickAction.noop, w => some w

/-- Iterated `nextCard`. -/
def iterNext : Nat → World → Option World
  | 0, w => some w
  | k + 1, w => (nextCard w).bind (iterNext k)

/-- The reachable worlds of the application: boot on fresh storage, any
sequence of user operations, and reloads of the page against the storage a
reachable world left behind. -/
inductive Reachable : World → Prop where
  | boot (w : World) : init emptyStorage = some w → Reachable w
  | stepNext (w w' : World) : Reachable w → nextCard w = some w' → Reachable w'
  | stepPrev (w w' : World) : Reachable w → prevCard w = some w' → Reachable w'
  | stepGoTo (w w' : World) (i : Nat) :
      Reachable w → i < w.flashcards.length → goTo i w = some w' → Reachable w'
  | stepFlip (w : World) : Reachable w → Reachable (flipCard w)
  | stepStar (w : World) : Reachable w → Reachable (toggleStar w)
  | stepVariant (w : World) (v : String) : Reachable w → Reachable (setDesignVariant v w)
  | stepImport (w : World) (t x now : String) :
      Reachable w → Reachable (importFlashcards t x now w).1
  | reload (w w' : World) : Reachable w → init w.storage = some w' → Reachable w'

/-- The world produced by booting on fresh storage. -/
def bootWorld : World :=
  { flashcards := defaultFlashcards,
    state := { currentIndex := 0, isFlipped := false, starredCards := [], designVariant := "option-a" },
    storage := { flashcardState := none, flashcardContent := none, designVariant := some "option-a" },
    bodyClasses := ["option-a"] }

/-- The boot world after one `nextCard`. -/
def bootWorld1 : World :=
  { bootWorld with state := { bootWorld.state with currentIndex := 1 } }

/-- A 9-card import text (semicolon-separated lines, comma-delimited columns). -/
def c1ImportText : String := "a,1;b,2;c,3;d,4;e,5;f,6;g,7;h,8;i,9"

/-- The cards `c1ImportText` parses to. -/
def c1Cards : List Card :=
  [ { term := "a", definition := "1" }, { term := "b", definition := "2" },
    { term := "c", definition := "3" }, { term := "d", definition := "4" },
    { term := "e", definition := "5" }, { term := "f", definition := "6" },
    { term := "g", definition := "7" }, { term := "h", definition := "8" },
    { term := "i", definition := "9" } ]

/-- The boot world after importing `c1ImportText`. -/
def importedWorld : World :=
  { flashcards := c1Cards,
    state := { currentIndex := 0, isFlipped := false, starredCards := [], designVariant := "option-a" },
    storage := { flashcardState := none,
                 flashcardContent := some { title := "T", cards := c1Cards, savedAt := "t0" },
                 designVariant := some "option-a" },
    bodyClasses := ["option-a"] }

/-- The imported world after eight `nextCard` steps: index 8 of 9. -/
def c1W8 : World :=
  { importedWorld with state := { importedWorld.state with currentIndex := 8 } }

/-- The world after starring card 8 there: its storage now holds a session
snapshot whose index is out of range for the built-in 8-card deck. -/
def c1BadWorld : World :=
  { c1W8 with
    state := { c1W8.state with starredCards := [8] },
    storage := { c1W8.storage with flashcardState := some { currentIndex := 8, starredCards := [8] } } }

/-- The per-line parse as the spec words it, for comparison with `parseLine`:
split on the first tab or comma into at most two trimmed parts, and yield a
Card only when both parts are non-empty. -/
def parseLineSpec (line : String) : Option Card :=
  match List.findIdx? isPartDelim line.toList with
  | none => none
  | some i =>
      let t := trimStr (line.toList.take i).asString
      let d := trimStr (line.toList.drop (i + 1)).asString
      if t ≠ "" ∧ d ≠ "" then some { term := t, definition := d } else none

/-- A persisted content snapshot used to probe startup behavior. -/
def c9Content : ContentSnapshot :=
  { title := "T", cards := [{ term := "x", definition := "y" }], savedAt := "t1" }

/-- Storage holding only that content snapshot. -/
def c9Storage : Storage :=
  { flashcardState := none, flashcardContent := some c9Content, designVariant := none }

/-- Booting on fresh storage yields `bootWorld`. -/
lemma init_empty_eq : init emptyStorage = some bootWorld := by decide

/-- One `nextCard` from the boot world. -/
lemma nextCard_boot_eq : nextCard bootWorld = some bootWorld1 := by decide

/-- Importing the 9-card text succeeds and yields `importedWorld`. -/
lemma import_boot_eq :
    importFlashcards "T" c1ImportText "t0" bootWorld = (importedWorld, ImportOutcome.success) := by decide

/-- Eight `nextCard` steps from the imported world reach index 8. -/
lemma iterNext_imported_eq : iterNext 8 importedWorld = some c1W8 := by decide

/-- Starring card 8 there persists the out-of-range session snapshot. -/
lemma toggleStar_c1W8_eq : toggleStar c1W8 = c1BadWorld := by decide

/-- Hydrating that snapshot against the built-in deck crashes `updateCard`. -/
lemma init_c1BadWorld_none : init c1BadWorld.storage = none := by decide

/-- An `updateCard` that returned a world did not change anything except
clearing the flip flag, and its index was in range. -/
lemma updateCard_eq_some {w w' : World} (h : updateCard w = some w') :
    w' = { w with state := { w.state with isFlipped := false } } ∧
    w.state.currentIndex < w.flashcards.length := by
  unfold updateCard at h
  split at h
  · exact ⟨(Option.some.inj h).symm, by assumption⟩
  · exact Option.noConfusion h

/-- `updateCard` succeeds on an in-range index. -/
lemma updateCard_some {w : World} (h : w.state.currentIndex < w.flashcards.length) :
    updateCard w = some { w with state := { w.state with isFlipped := false } } := by
  unfold updateCard
  rw [if_pos h]

/-- The wrap-around successor stays in range of a non-empty deck. -/
lemma nextIndex_lt {len i : Nat} (h0 : 0 < len) : nextIndex len i < len := by
  unfold nextIndex
  split <;> omega

/-- The wrap-around predecessor stays in range of a non-empty deck. -/
lemma prevIndex_lt {len i : Nat} (h0 : 0 < len) (hi : i < len) : prevIndex len i < len := by
  unfold prevIndex
  split <;> omega

/-- Navigation, starring, variant changes, import and in-range clicks all keep
`currentIndex` strictly below the deck size, and startup succeeds whenever the
persisted session snapshot (if any) is in range for the built-in deck. -/
lemma coreInvariantPreserved (w : World) (h : w.state.currentIndex < w.flashcards.length) :
    (∃ w', nextCard w = some w' ∧ w'.state.currentIndex < w'.flashcards.length) ∧
    (∃ w', prevCard w = some w' ∧ w'.state.currentIndex < w'.flashcards.length) ∧
    ((flipCard w).state.currentIndex < (flipCard w).flashcards.length) ∧
    ((toggleStar w).state.currentIndex < (toggleStar w).flashcards.length) ∧
    (∀ v, (setDesignVariant v w).state.currentIndex < (setDesignVariant v w).flashcards.length) ∧
    (∀ t x now, (importFlashcards t x now w).1.state.currentIndex <
        (importFlashcards t x now w).1.flashcards.length) ∧
    (∀ i, i < w.flashcards.length →
      ∃ w', goTo i w = some w' ∧ w'.state.currentIndex < w'.flashcards.length) ∧
    (∀ s : Storage,
      (∀ snap, s.flashcardState = some snap → snap.currentIndex < defaultFlashcards.length) →
      ∃ w', init s = some w' ∧ w'.state.currentIndex < w'.flashcards.length) := by
  have h0 : 0 < w.flashcards.length := Nat.lt_of_le_of_lt (Nat.zero_le _) h
  refine ⟨?_, ?_, h, ?_, fun v => h, ?_, ?_, ?_⟩
  · exact ⟨_, updateCard_some (nextIndex_lt h0), nextIndex_lt h0⟩
  · exact ⟨_, updateCard_some (prevIndex_lt h0 h), prevIndex_lt h0 h⟩
  · exact h
  · intro t x now
    by_cases ht : trimStr x = ""
    · simpa [importFlashcards, ht] using h
    · by_cases hc : 0 < (parseCards x).length
      · simp [importFlashcards, ht, hc, saveContent]
      · simpa [importFlashcards, ht, hc] using h
  · intro i hi
    exact ⟨_, updateCard_some hi, hi⟩
  · intro s hs
    unfold init loadSavedState loadDesignVariant
    cases hx : (setDesignVariant (s.designVariant.getD "option-a")
        { flashcards := defaultFlashcards, state := initialState,
          storage := s, bodyClasses := [] }).storage.flashcardState with
    | none =>
        refine ⟨_, updateCard_some ?_, ?_⟩
        · show (0 : Nat) < defaultFlashcards.length
          decide
        · show (0 : Nat) < defaultFlashcards.length
          decide
    | some snap =>
        have hs' : snap.currentIndex < defaultFlashcards.length := hs snap hx
        exact ⟨_, updateCard_some hs', hs'⟩

/-- Worlds reached by iterated `nextCard` from a reachable world are reachable. -/
lemma reachable_iterNext :
    ∀ (k : Nat) (w w' : World), Reachable w → iterNext k w = some w' → Reachable w' := by
  intro k
  induction k with
  | zero =>
      intro w w' hw h
      cases h
      exact hw
  | succ k ih =>
      intro w w' hw h
      unfold iterNext at h
      cases hx : nextCard w with
      | none => rw [hx] at h; exact Option.noConfusion h
      | some w1 =>
          rw [hx] at h
          exact ih w1 w' (Reachable.stepNext w w1 hw hx) h

/-- C1: the claim that `0 <= currentIndex < |CardStore|` holds in every
reachable state including hydration, and that no operation crashes, is false:
the world `c1BadWorld` is reachable (boot, import 9 cards, navigate to index
8, star it), its persisted session snapshot records index 8, and reloading
against that storage makes `init` crash, because `loadSavedState` hydrates
index 8 into the built-in 8-card deck without clamping and `updateCard`
dereferences the missing card. -/
theorem c1_counterexample :
    Reachable c1BadWorld ∧ init c1BadWorld.storage = none ∧
    c1BadWorld.storage.flashcardState = some { currentIndex := 8, starredCards := [8] } ∧
    defaultFlashcards.length = 8 := by
  refine ⟨?_, init_c1BadWorld_none, by decide, by decide⟩
  have h0 : Reachable bootWorld := Reachable.boot bootWorld init_empty_eq
  have h1 : Reachable (importFlashcards "T" c1ImportText "t0" bootWorld).1 :=
    Reachable.stepImport bootWorld "T" c1ImportText "t0" h0
  rw [import_boot_eq] at h1
  have h2 : Reachable c1W8 := reachable_iterNext 8 importedWorld c1W8 h1 iterNext_imported_eq
  have h3 : Reachable (toggleStar c1W8) := Reachable.stepStar c1W8 h2
  rw [toggleStar_c1W8_eq] at h3
  exact h3

/-- C1 (amended): every in-session operation (next, prev, flip, toggleStar,
setDesignVariant, import, and clicks on rendered indices) preserves
`0 <= currentIndex < |CardStore|` and never crashes, and startup succeeds
whenever the persisted session snapshot, if any, carries an index in range for
the built-in deck; hydration of an out-of-range persisted index is the one
crash path (see the counterexample). -/
theorem c1_theorem (w : World) (h : w.state.currentIndex < w.flashcards.length) :
    (∃ w', nextCard w = some w' ∧ w'.state.currentIndex < w'.flashcards.length) ∧
    (∃ w', prevCard w = some w' ∧ w'.state.currentIndex < w'.flashcards.length) ∧
    ((flipCard w).state.currentIndex < (flipCard w).flashcards.length) ∧
    ((toggleStar w).state.currentIndex < (toggleStar w).flashcards.length) ∧
    (∀ v, (setDesignVariant v w).state.currentIndex < (setDesignVariant v w).flashcards.length) ∧
    (∀ t x now, (importFlashcards t x now w).1.state.currentIndex <
        (importFlashcards t x now w).1.flashcards.length) ∧
    (∀ i, i < w.flashcards.length →
      ∃ w', goTo i w = some w' ∧ w'.state.currentIndex < w'.flashcards.length) ∧
    (∀ s : Storage,
      (∀ snap, s.flashcardState = some snap → snap.currentIndex < defaultFlashcards.length) →
      ∃ w', init s = some w' ∧ w'.state.currentIndex < w'.flashcards.length) :=
  coreInvariantPreserved w h

/-- C1 witness: the amended invariant theorem applied to the boot world. -/
theorem c1_witness :
    (flipCard bootWorld).state.currentIndex < (flipCard bootWorld).flashcards.length :=
  (c1_theorem bootWorld (by decide)).2.2.1

/-- C2: the claim that every `goTo`/`next`/`prev`/`toggleStar` is followed by a
persistence write of the session snapshot is false: `nextCard` on the boot
world leaves the `flashcardState` key absent, so no snapshot of the new state
was written. -/
theorem c2_counterexample :
    nextCard bootWorld = some bootWorld1 ∧
    bootWorld1.storage.flashcardState = none ∧
    bootWorld1.storage.flashcardState ≠ some (sessionSnapshotOf bootWorld1.state) := by
  decide

/-- C2 (amended): only `toggleStar` writes the session snapshot
`{ currentIndex, starredIndices }`; `next`, `prev` and `goTo` leave persistent
storage entirely unchanged. -/
theorem c2_theorem :
    (∀ w : World, (toggleStar w).storage.flashcardState = some (sessionSnapshotOf (toggleStar w).state)) ∧
    (∀ w w' : World, nextCard w = some w' → w'.storage = w.storage) ∧
    (∀ w w' : World, prevCard w = some w' → w'.storage = w.storage) ∧
    (∀ (i : Nat) (w w' : World), goTo i w = some w' → w'.storage = w.storage) := by
  refine ⟨fun w => rfl, ?_, ?_, ?_⟩
  · intro w w' hw
    unfold nextCard at hw
    rw [(updateCard_eq_some hw).1]
  · intro w w' hw
    unfold prevCard at hw
    rw [(updateCard_eq_some hw).1]
  · intro i w w' hw
    unfold goTo at hw
    rw [(updateCard_eq_some hw).1]

/-- C2 witness: the amended persistence theorem applied to the boot world. -/
theorem c2_witness : bootWorld1.storage = bootWorld.storage :=
  c2_theorem.2.1 bootWorld bootWorld1 nextCard_boot_eq

/-- C3: the claim that `setDesignVariant` is a no-op on unknown values is
false: applying the unknown value `bogus` to the boot world changes the
session variant, replaces the active body class, and persists `bogus`. -/
theorem c3_counterexample :
    knownVariants.contains "bogus" = false ∧
    setDesignVariant "bogus" bootWorld ≠ bootWorld ∧
    (setDesignVariant "bogus" bootWorld).state.designVariant = "bogus" ∧
    (setDesignVariant "bogus" bootWorld).bodyClasses = ["bogus"] ∧
    (setDesignVariant "bogus" bootWorld).storage.designVariant = some "bogus" := by
  decide

/-- C3 (amended): `setDesignVariant` performs no validation: for every input
value, known or not, it sets the session variant to it, persists it, installs
it as the active body class, removes every other known variant marker, and
touches nothing else. -/
theorem c3_theorem (v : String) (w : World) :
    (setDesignVariant v w).state.designVariant = v ∧
    (setDesignVariant v w).storage.designVariant = some v ∧
    v ∈ (setDesignVariant v w).bodyClasses ∧
    (∀ u, u ∈ knownVariants → u ≠ v → u ∉ (setDesignVariant v w).bodyClasses) ∧
    (setDesignVariant v w).flashcards = w.flashcards ∧
    (setDesignVariant v w).state.currentIndex = w.state.currentIndex ∧
    (setDesignVariant v w).state.starredCards = w.state.starredCards ∧
    (setDesignVariant v w).storage.flashcardState = w.storage.flashcardState ∧
    (setDesignVariant v w).storage.flashcardContent = w.storage.flashcardContent := by
  refine ⟨rfl, rfl, ?_, ?_, rfl, rfl, rfl, rfl, rfl⟩
  · show v ∈ classListAdd (w.bodyClasses.filter fun c => !(knownVariants.contains c)) v
    unfold classListAdd
    split
    · next hcon => simpa using hcon
    · simp
  · intro u hu huv
    show u ∉ classListAdd (w.bodyClasses.filter fun c => !(knownVariants.contains c)) v
    unfold classListAdd
    intro hmem
    have hmemf : u ∈ w.bodyClasses.filter fun c => !(knownVariants.contains c) := by
      rcases (by split at hmem <;> simp_all : u ∈ w.bodyClasses.filter
          (fun c => !(knownVariants.contains c)) ∨ u = v) with h' | h'
      · exact h'
      · exact absurd h' huv
    have hnot : u ∉ knownVariants := by
      simpa using (List.mem_filter.mp hmemf).2
    exact hnot hu

/-- C3 witness: the amended theorem applied to `bogus` and the boot world. -/
theorem c3_witness : "option-a" ∉ (setDesignVariant "bogus" bootWorld).bodyClasses :=
  ( c3_theorem "bogus" bootWorld).2.2.2.1 "option-a" (by decide) (by decide)

/-- C4: the claim that every failing import surfaces a blocking user-visible
message is false: the non-blank text `OnlyOneColumn` parses to zero cards and
the operation aborts with the store and state unchanged, but silently — the
alert is only reached for blank text. -/
theorem c4_counterexample :
    importFlashcards "T" "OnlyOneColumn" "t0" bootWorld = (bootWorld, ImportOutcome.silentNoop) ∧
    ImportOutcome.silentNoop ≠ ImportOutcome.alerted ∧
    trimStr "OnlyOneColumn" ≠ "" := by
  decide

/-- C4 (amended): an import whose text is empty or whitespace-only surfaces the
blocking alert and aborts with the world unchanged; an import whose non-blank
text yields zero valid cards also aborts with CardStore and SessionState
completely unchanged, but silently, with no user-visible message. -/
theorem c4_theorem (t x now : String) (w : World) :
    (trimStr x = "" → importFlashcards t x now w = (w, ImportOutcome.alerted)) ∧
    (trimStr x ≠ "" → parseCards x = [] →
      importFlashcards t x now w = (w, ImportOutcome.silentNoop)) := by
  constructor
  · intro hx
    simp [importFlashcards, hx]
  · intro hx hp
    simp [importFlashcards, hx, hp]

/-- C4 witness: the amended theorem applied to whitespace-only text and to the
delimiter-free text. -/
theorem c4_witness :
    importFlashcards "T" "   " "t0" bootWorld = (bootWorld, ImportOutcome.alerted) ∧
    importFlashcards "T" "OnlyOneColumn" "t0" bootWorld = (bootWorld, ImportOutcome.silentNoop) :=
  ⟨( c4_theorem "T" "   " "t0" bootWorld).1 (by decide),
   ( c4_theorem "T" "OnlyOneColumn" "t0" bootWorld).2 (by decide) (by decide)⟩

/-- C5: the claim that a line is split on the first tab or comma into at most
two trimmed parts, with a Card only from two non-empty parts, is false: the
code splits on every delimiter, so `a, b, c` yields definition `b` where the
claimed split yields `b, c`; and `a,` yields a card with an empty definition,
which the claimed non-emptiness requirement would drop. -/
theorem c5_counterexample :
    parseLine "a, b, c" = some { term := "a", definition := "b" } ∧
    parseLineSpec "a, b, c" = some { term := "a", definition := "b, c" } ∧
    ({ term := "a", definition := "b" } : Card) ≠ { term := "a", definition := "b, c" } ∧
    parseLine "a," = some { term := "a", definition := "" } ∧
    parseLineSpec "a," = none := by
  decide

/-- C5 (amended): each line is split on every tab or comma, all parts are
trimmed; a line yields a Card exactly when the split produces at least two
parts, empty or not, the card being built from the first two parts with all
later parts ignored; lines with fewer than two parts are silently dropped. -/
theorem c5_theorem (line : String) :
    ((lineParts line).length < 2 → parseLine line = none) ∧
    (∀ t d rest, lineParts line = t :: d :: rest →
      parseLine line = some { term := t, definition := d }) ∧
    ((parseLine line).isSome ↔ 2 ≤ (lineParts line).length) := by
  unfold parseLine
  cases hp : lineParts line with
  | nil => simp
  | cons a tl =>
      cases tl with
      | nil => simp
      | cons b tl2 =>
          refine ⟨?_, ?_, ?_⟩
          · intro hlt
            simp at hlt
            omega
          · intro t d rest heq
            injection heq with h1 h2
            injection h2 with h3 h4
            subst h1
            subst h3
            rfl
          · simp

/-- C5 witness: the amended theorem applied to a delimiter-free line. -/
theorem c5_witness : parseLine "x" = none :=
  ( c5_theorem "x").1 (by decide)

/-- C6: evaluating the renderers on the built-in deck: every star affordance
the panel and table renderers produce carries no click action at all (the code
registers no listener on the star buttons), and dispatching such a click
changes nothing — so `toggleStar(i)` is never invoked, contrary to the claim,
while `currentIndex` indeed never changes, vacuously. -/
theorem c6_theorem :
    ((updatePanelTermsList defaultFlashcards).all (fun r => r.starAction == ClickAction.noop)) = true ∧
    ((initTableView defaultFlashcards).all (fun r => r.starAction == ClickAction.noop)) = true ∧
    (∀ w : World, applyAction ClickAction.noop w = some w) ∧
    (updatePanelTermsList defaultFlashcards).length = defaultFlashcards.length := by
  refine ⟨by decide, by decide, fun w => rfl, by decide⟩

/-- On an in-range index of a non-empty deck, the wrap-around successor is
addition of 1 modulo the deck size. -/
lemma nextIndex_eq_mod {n i : Nat} (h0 : 0 < n) (hi : i < n) : nextIndex n i = (i + 1) % n := by
  unfold nextIndex
  split
  · rw [Nat.mod_eq_of_lt (by omega)]
  · have h1 : i + 1 = n := by omega
    rw [h1, Nat.mod_self]

/-- On an in-range index of a non-empty deck, the wrap-around predecessor is
addition of `n - 1` modulo the deck size. -/
lemma prevIndex_eq_mod {n i : Nat} (h0 : 0 < n) (hi : i < n) : prevIndex n i = (i + (n - 1)) % n := by
  unfold prevIndex
  split
  · have h1 : i + (n - 1) = (i - 1) + n := by omega
    rw [h1, Nat.add_mod_right, Nat.mod_eq_of_lt (by omega)]
  · have h1 : i = 0 := by omega
    subst h1
    rw [Nat.zero_add, Nat.mod_eq_of_lt (by omega)]

/-- Iterating the wrap-around successor adds the iteration count modulo the deck size. -/
lemma nextIndex_iterate {n : Nat} (h0 : 0 < n) :
    ∀ (k i : Nat), i < n → (fun j => nextIndex n j)^[k] i = (i + k) % n := by
  intro k
  induction k with
  | zero =>
      intro i hi
      simpa using (Nat.mod_eq_of_lt hi).symm
  | succ k ih =>
      intro i hi
      rw [Function.iterate_succ_apply', ih i hi]
      show nextIndex n ((i + k) % n) = (i + (k + 1)) % n
      rw [nextIndex_eq_mod h0 (Nat.mod_lt _ h0)]
      calc ((i + k) % n + 1) % n
          = ((i + k) + 1) % n := Nat.ModEq.add_right 1 (Nat.mod_modEq (i + k) n)
        _ = (i + (k + 1)) % n := by rw [Nat.add_assoc]

/-- Iterating the wrap-around predecessor adds `k * (n - 1)` modulo the deck size. -/
lemma prevIndex_iterate {n : Nat} (h0 : 0 < n) :
    ∀ (k i : Nat), i < n → (fun j => prevIndex n j)^[k] i = (i + k * (n - 1)) % n := by
  intro k
  induction k with
  | zero =>
      intro i hi
      simpa using (Nat.mod_eq_of_lt hi).symm
  | succ k ih =>
      intro i hi
      rw [Function.iterate_succ_apply', ih i hi]
      show prevIndex n ((i + k * (n - 1)) % n) = (i + (k + 1) * (n - 1)) % n
      rw [prevIndex_eq_mod h0 (Nat.mod_lt _ h0)]
      calc ((i + k * (n - 1)) % n + (n - 1)) % n
          = ((i + k * (n - 1)) + (n - 1)) % n :=
            Nat.ModEq.add_right (n - 1) (Nat.mod_modEq (i + k * (n - 1)) n)
        _ = (i + (k + 1) * (n - 1)) % n := by
            congr 1
            rw [Nat.succ_mul, Nat.add_assoc]

/-- C7: on a non-empty deck of size `n` with an in-range starting index,
applying the `nextCard` index step `n` times returns to the starting index,
likewise for `prevCard`, and `nextCard`/`prevCard` realize exactly those index
steps on any world of matching deck size and index. -/
theorem c7_theorem (n i : Nat) (h0 : 0 < n) (hi : i < n) :
    (fun j => nextIndex n j)^[n] i = i ∧
    (fun j => prevIndex n j)^[n] i = i ∧
    (∀ w : World, w.flashcards.length = n → w.state.currentIndex = i →
      ∃ w', nextCard w = some w' ∧ w'.state.currentIndex = nextIndex n i ∧
        w'.flashcards.length = n) ∧
    (∀ w : World, w.flashcards.length = n → w.state.currentIndex = i →
      ∃ w', prevCard w = some w' ∧ w'.state.currentIndex = prevIndex n i ∧
        w'.flashcards.length = n) := by
  refine ⟨?_, ?_, ?_, ?_⟩
  · rw [nextIndex_iterate h0 n i hi, Nat.add_mod_right, Nat.mod_eq_of_lt hi]
  · rw [prevIndex_iterate h0 n i hi, Nat.add_mul_mod_self_left, Nat.mod_eq_of_lt hi]
  · intro w hlen hidx
    subst hlen
    subst hidx
    exact ⟨_, updateCard_some (nextIndex_lt h0), rfl, rfl⟩
  · intro w hlen hidx
    subst hlen
    subst hidx
    exact ⟨_, updateCard_some (prevIndex_lt h0 hi), rfl, rfl⟩

/-- C7 witness: the cyclic-return theorem applied to a 3-card deck at index 1. -/
theorem c7_witness :
    (fun j => nextIndex 3 j)^[3] 1 = 1 ∧ (fun j => prevIndex 3 j)^[3] 1 = 1 :=
  ⟨(c7_theorem 3 1 (by decide) (by decide)).1, (c7_theorem 3 1 (by decide) (by decide)).2.1⟩

/-- C8: `flipCard` is an involution and changes nothing but the flip flag, and
every navigation — `nextCard`, `prevCard`, or a `goTo` click — forces
`isFlipped` to `false` regardless of its prior value. -/
theorem c8_theorem :
    (∀ w : World, flipCard (flipCard w) = w) ∧
    (∀ w : World,
      (flipCard w).state.isFlipped = !w.state.isFlipped ∧
      (flipCard w).state.currentIndex = w.state.currentIndex ∧
      (flipCard w).state.starredCards = w.state.starredCards ∧
      (flipCard w).state.designVariant = w.state.designVariant ∧
      (flipCard w).flashcards = w.flashcards ∧
      (flipCard w).storage = w.storage ∧
      (flipCard w).bodyClasses = w.bodyClasses) ∧
    (∀ w w' : World, nextCard w = some w' → w'.state.isFlipped = false) ∧
    (∀ w w' : World, prevCard w = some w' → w'.state.isFlipped = false) ∧
    (∀ (i : Nat) (w w' : World), goTo i w = some w' → w'.state.isFlipped = false) := by
  refine ⟨?_, fun w => ⟨rfl, rfl, rfl, rfl, rfl, rfl, rfl⟩, ?_, ?_, ?_⟩
  · intro w
    simp [flipCard]
  · intro w w' hw
    unfold nextCard at hw
    rw [(updateCard_eq_some hw).1]
  · intro w w' hw
    unfold prevCard at hw
    rw [(updateCard_eq_some hw).1]
  · intro i w w' hw
    unfold goTo at hw
    rw [(updateCard_eq_some hw).1]

/-- C8 witness: navigation clears the flip flag on the boot world. -/
theorem c8_witness : bootWorld1.state.isFlipped = false :=
  c8_theorem.2.2.1 bootWorld bootWorld1 nextCard_boot_eq

/-- C9: the claim that every persisted snapshot is read back at startup is
false: booting against a storage that holds a content snapshot produces the
built-in deck, not the persisted cards, and the resulting session state is the
same as booting on empty storage — the content snapshot is never read. -/
theorem c9_counterexample :
    (init c9Storage).map World.flashcards = some defaultFlashcards ∧
    (init c9Storage).map World.flashcards ≠ some c9Content.cards ∧
    (init c9Storage).map World.state = (init emptyStorage).map World.state := by
  decide

/-- C9 (amended): the session and layout snapshots are read back at startup
(hydrating index, starred set and variant), the content snapshot
`{ title, cards, savedAt }` is written exactly when an import succeeds and is
untouched otherwise, but it is never read back: startup always yields the
built-in deck. -/
theorem c9_theorem :
    (∀ (s : Storage) (w : World), init s = some w →
      w.flashcards = defaultFlashcards ∧
      w.state.designVariant = s.designVariant.getD "option-a" ∧
      w.state.currentIndex = (s.flashcardState.map SessionSnapshot.currentIndex).getD 0 ∧
      w.state.starredCards = (s.flashcardState.map SessionSnapshot.starredCards).getD []) ∧
    (∀ (t x now : String) (w : World),
      ((importFlashcards t x now w).2 = ImportOutcome.success →
        (importFlashcards t x now w).1.storage.flashcardContent =
          some { title := if t = "" then "Untitled Set" else t,
                 cards := parseCards x, savedAt := now }) ∧
      ((importFlashcards t x now w).2 ≠ ImportOutcome.success →
        (importFlashcards t x now w).1.storage.flashcardContent = w.storage.flashcardContent)) := by
  constructor
  · intro s w hw
    unfold init loadSavedState loadDesignVariant at hw
    revert hw
    cases hx : (setDesignVariant (s.designVariant.getD "option-a")
        { flashcards := defaultFlashcards, state := initialState,
          storage := s, bodyClasses := [] }).storage.flashcardState with
    | none =>
        intro hw
        have hxs : s.flashcardState = none := hx
        have heq := (updateCard_eq_some hw).1
        subst heq
        refine ⟨rfl, rfl, ?_, ?_⟩ <;> (rw [hxs]; try rfl)
    | some snap =>
        intro hw
        have hxs : s.flashcardState = some snap := hx
        have heq := (updateCard_eq_some hw).1
        subst heq
        refine ⟨rfl, rfl, ?_, ?_⟩ <;> (rw [hxs]; try rfl)
  · intro t x now w
    by_cases ht : trimStr x = ""
    · constructor
      · intro hsucc
        simp [importFlashcards, ht] at hsucc
      · intro _
        simp [importFlashcards, ht]
    · by_cases hc : 0 < (parseCards x).length
      · constructor
        · intro _
          simp [importFlashcards, ht, hc, saveContent]
        · intro hns
          simp [importFlashcards, ht, hc] at hns
      · constructor
        · intro hsucc
          simp [importFlashcards, ht, hc] at hsucc
        · intro _
          simp [importFlashcards, ht, hc]

/-- C9 witness: the amended theorem applied to the boot on empty storage. -/
theorem c9_witness : bootWorld.flashcards = defaultFlashcards :=
  (c9_theorem.1 emptyStorage bootWorld init_empty_eq).1

/-- C10: when the keyboard event targets an INPUT or TEXTAREA element, the
handler returns before any state change: no navigation, no flip, the world
is exactly as before. -/
theorem c10_theorem (tag key : String) (w : World) (h : tag = "INPUT" ∨ tag = "TEXTAREA") :
    handleKeydown tag key w = some w := by
  unfold handleKeydown
  rw [if_pos h]

/-- C10 witness: ArrowLeft while typing in an INPUT leaves the boot world unchanged. -/
theorem c10_witness : handleKeydown "INPUT" "ArrowLeft" bootWorld = some bootWorld :=
  c10_theorem "INPUT" "ArrowLeft" bootWorld (Or.inl rfl)
